import Mathlib

/-!
# Verification of the backend-task inventory low-stock alert engine

Shallow embedding of the repository's alert computation
(`low_stock_alerts.py`: the SQL query plus the Python post-processing),
of the demo simulation (`demo_test.py`, `simulate_low_stock_alerts`), and
of the product-creation endpoint (`create_product.py`), together with
theorems settling the specification claims.

Modelling conventions:
* SQL FLOAT arithmetic is modelled exactly: a float value of the form
  `p / q` is represented by the fraction type `Frac` (integer numerator,
  positive natural denominator).  All values the query divides are exact
  integers divided by positive counts, so no rounding occurs in the
  float range used; bridge lemmas relate `Frac` comparisons and the
  ceiling computation to the mathematical rationals `ℚ`.
* SQL rows are Lean structures; tables are lists of rows; joins are
  `flatMap` over the joined lists with the join/where conditions as a
  filter; `ORDER BY` is a stable insertion sort by the order-by key.
* The database handle is replaced by an explicit snapshot of the tables
  read by the query, passed as an argument (the data-access
  collaborator of the spec).
-/

/-- An exact fraction `num / den` with a positive denominator.
Models the exact value of the SQL FLOAT expressions of the query. -/
structure Frac where
  num : Int
  den : ℕ+
deriving DecidableEq

/-- The rational value of a `Frac`. -/
def Frac.toRat (r : Frac) : ℚ := (r.num : ℚ) / ((r.den : ℕ) : ℚ)

/-- `a ≤ b` on fractions, by cross multiplication (denominators are positive). -/
def fracLE (a b : Frac) : Prop := a.num * ((b.den : ℕ) : ℤ) ≤ b.num * ((a.den : ℕ) : ℤ)

instance (a b : Frac) : Decidable (fracLE a b) :=
  inferInstanceAs (Decidable (a.num * ((b.den : ℕ) : ℤ) ≤ b.num * ((a.den : ℕ) : ℤ)))

/-- `r > 0` on fractions: positive numerator (denominator is positive). -/
def Frac.Pos (r : Frac) : Prop := 0 < r.num

instance (r : Frac) : Decidable r.Pos := inferInstanceAs (Decidable (0 < r.num))

/-- Ceiling of `a / d` for a positive natural divisor `d`,
computed with euclidean integer division. -/
def intCeilDiv (a : Int) (d : Nat) : Int := -((-a) / (d : Int))

/-! ## Data model (tables read by the query) -/

/-- A row of `inventory_movements`.  `created_at` is a timestamp in
seconds; `quantity` is the signed quantity delta. -/
structure InventoryMovement where
  warehouse_id : Nat
  product_id : Nat
  quantity : Int
  movement_type : String
  created_at : Int
deriving DecidableEq

/-- A row of `products`. -/
structure Product where
  id : Nat
  name : String
  sku : String
  reorder_level : Option Int
  is_active : Bool
deriving DecidableEq

/-- A row of `warehouses`. -/
structure Warehouse where
  id : Nat
  name : String
  company_id : Int
  status : String
deriving DecidableEq

/-- A row of `inventory` (composite key product/warehouse). -/
structure Inventory where
  product_id : Nat
  warehouse_id : Nat
  quantity_available : Int
deriving DecidableEq

/-- A row of `suppliers`. -/
structure Supplier where
  id : Nat
  name : String
  email : Option String
  contact_person : Option String
  status : String
deriving DecidableEq

/-- A row of `supplier_products`. -/
structure SupplierProduct where
  product_id : Nat
  supplier_id : Nat
  is_active : Bool
  is_preferred_supplier : Bool
  cost_price : Frac
  lead_time_days : Nat
  minimum_order_quantity : Nat
deriving DecidableEq

/-- The read-consistent snapshot of the tables the query touches,
plus the evaluation time `now` (`NOW()` in the SQL). -/
structure Snapshot where
  now : Int
  movements : List InventoryMovement
  supplier_products : List SupplierProduct
  suppliers : List Supplier
  inventories : List Inventory
  products : List Product
  warehouses : List Warehouse
deriving DecidableEq

/-! ## Movement aggregator (`recent_sales` CTE) -/

/-- Seconds in 30 days: the trailing window `INTERVAL '30 days'`. -/
def windowSeconds : Int := 30 * 86400

/-- Calendar day of a timestamp (SQL `DATE(created_at)`), as a floor
division of the timestamp by the number of seconds per day. -/
def dateOf (t : Int) : Int := Int.fdiv t 86400

/-- The `WHERE` filter of the `recent_sales` CTE:
`movement_type = 'out' AND created_at >= NOW() - INTERVAL '30 days'
AND quantity < 0`. -/
def movementQualifies (now : Int) (m : InventoryMovement) : Prop :=
  m.movement_type = "out" ∧ now - windowSeconds ≤ m.created_at ∧ m.quantity < 0

instance (now : Int) (m : InventoryMovement) : Decidable (movementQualifies now m) :=
  inferInstanceAs (Decidable (m.movement_type = "out" ∧
    now - windowSeconds ≤ m.created_at ∧ m.quantity < 0))

/-- Movements passing the `recent_sales` filter. -/
def qualifyingMovements (now : Int) (movs : List InventoryMovement) :
    List InventoryMovement :=
  movs.filter (fun m => decide (movementQualifies now m))

/-- `GROUP BY im.warehouse_id, im.product_id`: the group of a key. -/
def movementGroup (now : Int) (movs : List InventoryMovement) (k : Nat × Nat) :
    List InventoryMovement :=
  (qualifyingMovements now movs).filter
    (fun m => decide ((m.warehouse_id, m.product_id) = k))

/-- `SUM(ABS(im.quantity))` over a group. -/
def totalSold (g : List InventoryMovement) : Int :=
  (g.map (fun m => |m.quantity|)).sum

/-- `COUNT(DISTINCT DATE(im.created_at))` over a group. -/
def activeDays (g : List InventoryMovement) : Nat :=
  ((g.map (fun m => dateOf m.created_at)).dedup).length

/-- A row of the `recent_sales` CTE. -/
structure SalesRec where
  warehouse_id : Nat
  product_id : Nat
  total_sold : Int
  active_days : Nat
  daily_sales_rate : Frac
deriving DecidableEq

/-- Builds the `recent_sales` row of one group key.  The rate is
`total_sold::FLOAT / active_days` when `active_days > 0`, else `0`. -/
def mkSalesRec (now : Int) (movs : List InventoryMovement) (k : Nat × Nat) :
    SalesRec :=
  let g := movementGroup now movs k
  let ts := totalSold g
  let ad := activeDays g
  { warehouse_id := k.1
    product_id := k.2
    total_sold := ts
    active_days := ad
    daily_sales_rate := if h : 0 < ad then ⟨ts, ⟨ad, h⟩⟩ else ⟨0, 1⟩ }

/-- The `recent_sales` CTE: one row per distinct qualifying group key,
restricted by `HAVING SUM(ABS(im.quantity)) > 0`. -/
def recentSales (now : Int) (movs : List InventoryMovement) : List SalesRec :=
  ((((qualifyingMovements now movs).map
        (fun m => (m.warehouse_id, m.product_id))).dedup).map
      (mkSalesRec now movs)).filter
    (fun r => decide (0 < r.total_sold))

/-! ## Supplier resolver (`preferred_suppliers` CTE) -/

/-- A `supplier_products ⋈ suppliers` candidate row passing the CTE's
`WHERE sp.is_active = true AND s.status = 'active'` filter. -/
def candidateOK (c : SupplierProduct × Supplier) : Prop :=
  c.2.id = c.1.supplier_id ∧ c.1.is_active = true ∧ c.2.status = "active"

instance (c : SupplierProduct × Supplier) : Decidable (candidateOK c) :=
  inferInstanceAs (Decidable (c.2.id = c.1.supplier_id ∧
    c.1.is_active = true ∧ c.2.status = "active"))

/-- All qualifying candidate rows of the CTE's join, for one product. -/
def productCandidates (sps : List SupplierProduct) (sups : List Supplier)
    (pid : Nat) : List (SupplierProduct × Supplier) :=
  ((sps.flatMap (fun sp => sups.map (fun s => (sp, s)))).filter
      (fun c => decide (candidateOK c))).filter
    (fun c => decide (c.1.product_id = pid))

/-- Sort rank of `ORDER BY sp.is_preferred_supplier DESC`: preferred
candidates (rank 0) come before non-preferred ones (rank 1). -/
def prefRank (sp : SupplierProduct) : Nat := if sp.is_preferred_supplier then 0 else 1

/-- The candidate order of the CTE's
`ORDER BY sp.is_preferred_supplier DESC, sp.cost_price ASC`. -/
def candLE (x y : SupplierProduct × Supplier) : Prop :=
  prefRank x.1 < prefRank y.1 ∨
    (prefRank x.1 = prefRank y.1 ∧ fracLE x.1.cost_price y.1.cost_price)

instance : DecidableRel candLE := fun x y =>
  inferInstanceAs (Decidable (prefRank x.1 < prefRank y.1 ∨
    (prefRank x.1 = prefRank y.1 ∧ fracLE x.1.cost_price y.1.cost_price)))

instance : IsTotal (SupplierProduct × Supplier) candLE where
  total x y := by
    rcases Nat.lt_trichotomy (prefRank x.1) (prefRank y.1) with h | h | h
    · exact Or.inl (Or.inl h)
    · rcases le_total (x.1.cost_price.num * ((y.1.cost_price.den : ℕ) : ℤ))
        (y.1.cost_price.num * ((x.1.cost_price.den : ℕ) : ℤ)) with hc | hc
      · exact Or.inl (Or.inr ⟨h, hc⟩)
      · exact Or.inr (Or.inr ⟨h.symm, hc⟩)
    · exact Or.inr (Or.inl h)

instance : IsTrans (SupplierProduct × Supplier) candLE where
  trans x y z hxy hyz := by
    rcases hxy with h1 | ⟨e1, c1⟩
    · rcases hyz with h2 | ⟨e2, _⟩
      · exact Or.inl (h1.trans h2)
      · exact Or.inl (e2 ▸ h1)
    · rcases hyz with h2 | ⟨e2, c2⟩
      · exact Or.inl (e1 ▸ h2)
      · refine Or.inr ⟨e1.trans e2, ?_⟩
        unfold fracLE at c1 c2 ⊢
        have hdx : (0 : ℤ) < ((x.1.cost_price.den : ℕ) : ℤ) := by
          exact_mod_cast x.1.cost_price.den.pos
        have hdy : (0 : ℤ) < ((y.1.cost_price.den : ℕ) : ℤ) := by
          exact_mod_cast y.1.cost_price.den.pos
        have hdz : (0 : ℤ) < ((z.1.cost_price.den : ℕ) : ℤ) := by
          exact_mod_cast z.1.cost_price.den.pos
        nlinarith [mul_le_mul_of_nonneg_right c1 (le_of_lt hdz),
          mul_le_mul_of_nonneg_right c2 (le_of_lt hdx)]

/-- The resolved supplier snapshot of the `preferred_suppliers` CTE. -/
structure ResolvedSupplier where
  product_id : Nat
  supplier_id : Nat
  supplier_name : String
  contact_email : Option String
  lead_time_days : Nat
  minimum_order_quantity : Nat
deriving DecidableEq

/-- Projects a winning candidate row onto the CTE's output columns;
`contact_email` is `COALESCE(s.email, s.contact_person)`. -/
def mkResolved (pid : Nat) (c : SupplierProduct × Supplier) : ResolvedSupplier :=
  { product_id := pid
    supplier_id := c.2.id
    supplier_name := c.2.name
    contact_email := c.2.email.orElse (fun _ => c.2.contact_person)
    lead_time_days := c.1.lead_time_days
    minimum_order_quantity := c.1.minimum_order_quantity }

/-- `SELECT DISTINCT ON (sp.product_id) ... ORDER BY sp.product_id,
sp.is_preferred_supplier DESC, sp.cost_price ASC`: per product, the
first candidate of the stable sort by preferred-then-cost wins; a
product with no candidate has no row (the later LEFT JOIN gives null). -/
def resolveSupplier (sps : List SupplierProduct) (sups : List Supplier)
    (pid : Nat) : Option ResolvedSupplier :=
  ((List.insertionSort candLE (productCandidates sps sups pid)).head?).map
    (mkResolved pid)

/-! ## Main query: row assembly, filter, order -/

/-- One row of the main `SELECT`'s result set (before the Python loop). -/
structure QueryRow where
  product_id : Nat
  product_name : String
  sku : String
  warehouse_id : Nat
  warehouse_name : String
  current_stock : Int
  threshold : Int
  days_until_stockout : Int
  supplier_id : Option Nat
  supplier_name : Option String
  contact_email : Option String
  lead_time_days : Option Nat
  minimum_order_quantity : Option Nat
  daily_sales_rate : Frac
  units_sold_30_days : Int
deriving DecidableEq

/-- The `CASE WHEN rs.daily_sales_rate > 0 THEN
CEIL(i.quantity_available::FLOAT / rs.daily_sales_rate) ELSE 999 END`
column: ceiling of `qty / (num/den)` = ceiling of `qty * den / num`. -/
def stockoutDays (qty : Int) (rate : Frac) : Int :=
  if rate.Pos then intCeilDiv (qty * ((rate.den : ℕ) : ℤ)) rate.num.toNat else 999

/-- The join conditions of the main query's `FROM ... JOIN` chain. -/
def joinOK (i : Inventory) (w : Warehouse) (p : Product) (rs : SalesRec) : Prop :=
  i.warehouse_id = w.id ∧ i.product_id = p.id ∧
    rs.warehouse_id = i.warehouse_id ∧ rs.product_id = i.product_id

instance (i : Inventory) (w : Warehouse) (p : Product) (rs : SalesRec) :
    Decidable (joinOK i w p rs) :=
  inferInstanceAs (Decidable (i.warehouse_id = w.id ∧ i.product_id = p.id ∧
    rs.warehouse_id = i.warehouse_id ∧ rs.product_id = i.product_id))

/-- The main query's `WHERE` clause:
`w.company_id = :company_id AND i.quantity_available <=
COALESCE(p.reorder_level, 10) AND p.is_active = true AND
w.status = 'active'`. -/
def whereOK (company_id : Int) (i : Inventory) (w : Warehouse) (p : Product) : Prop :=
  w.company_id = company_id ∧ i.quantity_available ≤ p.reorder_level.getD 10 ∧
    p.is_active = true ∧ w.status = "active"

instance (company_id : Int) (i : Inventory) (w : Warehouse) (p : Product) :
    Decidable (whereOK company_id i w p) :=
  inferInstanceAs (Decidable (w.company_id = company_id ∧
    i.quantity_available ≤ p.reorder_level.getD 10 ∧
    p.is_active = true ∧ w.status = "active"))

/-- Builds one result row from the joined sources (`ps` is the
`LEFT JOIN preferred_suppliers` side, `none` when no row matched). -/
def mkRow (i : Inventory) (w : Warehouse) (p : Product) (rs : SalesRec)
    (ps : Option ResolvedSupplier) : QueryRow :=
  { product_id := p.id
    product_name := p.name
    sku := p.sku
    warehouse_id := i.warehouse_id
    warehouse_name := w.name
    current_stock := i.quantity_available
    threshold := p.reorder_level.getD 10
    days_until_stockout := stockoutDays i.quantity_available rs.daily_sales_rate
    supplier_id := ps.map (fun r => r.supplier_id)
    supplier_name := ps.map (fun r => r.supplier_name)
    contact_email := ps.bind (fun r => r.contact_email)
    lead_time_days := ps.map (fun r => r.lead_time_days)
    minimum_order_quantity := ps.map (fun r => r.minimum_order_quantity)
    daily_sales_rate := rs.daily_sales_rate
    units_sold_30_days := rs.total_sold }

/-- The unordered result set of the main query: inner joins of
`inventory`, `warehouses`, `products` and `recent_sales`, left join of
`preferred_suppliers`, filtered by the `WHERE` clause. -/
def queryRows (company_id : Int) (db : Snapshot) : List QueryRow :=
  db.inventories.flatMap fun i =>
    db.warehouses.flatMap fun w =>
      db.products.flatMap fun p =>
        (recentSales db.now db.movements).flatMap fun rs =>
          if joinOK i w p rs ∧ whereOK company_id i w p then
            [mkRow i w p rs (resolveSupplier db.supplier_products db.suppliers p.id)]
          else []

/-- The `ORDER BY` key order: the days-until-stockout `CASE` expression
ascending, then `i.quantity_available` ascending (both are columns of
the row). -/
def rowOrder (a b : QueryRow) : Prop :=
  a.days_until_stockout < b.days_until_stockout ∨
    (a.days_until_stockout = b.days_until_stockout ∧
      a.current_stock ≤ b.current_stock)

instance : DecidableRel rowOrder := fun a b =>
  inferInstanceAs (Decidable (a.days_until_stockout < b.days_until_stockout ∨
    (a.days_until_stockout = b.days_until_stockout ∧
      a.current_stock ≤ b.current_stock)))

instance : IsTotal QueryRow rowOrder where
  total a b := by
    rcases lt_trichotomy a.days_until_stockout b.days_until_stockout with h | h | h
    · exact Or.inl (Or.inl h)
    · rcases le_total a.current_stock b.current_stock with hc | hc
      · exact Or.inl (Or.inr ⟨h, hc⟩)
      · exact Or.inr (Or.inr ⟨h.symm, hc⟩)
    · exact Or.inr (Or.inl h)

instance : IsTrans QueryRow rowOrder where
  trans a b c hab hbc := by
    rcases hab with h1 | ⟨e1, c1⟩
    · rcases hbc with h2 | ⟨e2, _⟩
      · exact Or.inl (h1.trans h2)
      · exact Or.inl (e2 ▸ h1)
    · rcases hbc with h2 | ⟨e2, c2⟩
      · exact Or.inl (e1 ▸ h2)
      · exact Or.inr ⟨e1.trans e2, c1.trans c2⟩

/-! ## Python post-processing (the response loop of `low_stock_alerts`) -/

/-- The `supplier` object of one response alert. -/
structure SupplierInfo where
  id : Option Nat
  name : String
  contact_email : String
deriving DecidableEq

/-- One alert of the JSON response. -/
structure Alert where
  product_id : Nat
  product_name : String
  sku : String
  warehouse_id : Nat
  warehouse_name : String
  current_stock : Int
  threshold : Int
  days_until_stockout : Int
  supplier : SupplierInfo
deriving DecidableEq

/-- The "no supplier" sentinel object. -/
def noSupplierInfo : SupplierInfo :=
  { id := none, name := "No Supplier Found", contact_email := "No Contact Available" }

/-- Python `x or default` on an optional string: `None` and `""` are
falsy and fall through to the default. -/
def pyOr (s : Option String) (dflt : String) : String :=
  match s with
  | none => dflt
  | some v => if v = "" then dflt else v

/-- Python truthiness of `row.supplier_id`: `None` and `0` are falsy. -/
def truthyId (o : Option Nat) : Bool :=
  match o with
  | none => false
  | some n => decide (n ≠ 0)

/-- The alert dictionary built from one row
(`days_until_stockout` capped by `min(row.days_until_stockout, 999)`). -/
def mkAlert (r : QueryRow) : Alert :=
  { product_id := r.product_id
    product_name := r.product_name
    sku := r.sku
    warehouse_id := r.warehouse_id
    warehouse_name := r.warehouse_name
    current_stock := r.current_stock
    threshold := r.threshold
    days_until_stockout := min r.days_until_stockout 999
    supplier :=
      if truthyId r.supplier_id then
        { id := r.supplier_id
          name := pyOr r.supplier_name "No Supplier Found"
          contact_email := pyOr r.contact_email "No Contact Available" }
      else noSupplierInfo }

/-- The ordered alert list of the endpoint's 200 response. -/
def alertList (company_id : Int) (db : Snapshot) : List Alert :=
  (List.insertionSort rowOrder (queryRows company_id db)).map mkAlert

/-- The endpoint's JSON success body. -/
structure AlertResponse where
  alerts : List Alert
  total_alerts : Nat
deriving DecidableEq

/-- An error response body paired with its HTTP status. -/
structure ErrorResponse where
  error : String
  status : Nat
deriving DecidableEq

instance {ε α : Type _} [DecidableEq ε] [DecidableEq α] : DecidableEq (Except ε α)
  | .error x, .error y =>
    if h : x = y then .isTrue (h ▸ rfl) else .isFalse fun e => h (Except.error.inj e)
  | .error _, .ok _ => .isFalse fun e => Except.noConfusion e
  | .ok _, .error _ => .isFalse fun e => Except.noConfusion e
  | .ok x, .ok y =>
    if h : x = y then .isTrue (h ▸ rfl) else .isFalse fun e => h (Except.ok.inj e)

/-- The endpoint `low_stock_alerts(company_id)`: validation of the
company id, then the query and the response loop; the success value
carries the HTTP status 200. -/
def low_stock_alerts (company_id : Int) (db : Snapshot) :
    Except ErrorResponse (AlertResponse × Nat) :=
  if company_id ≤ 0 then
    Except.error { error := "Invalid company ID", status := 400 }
  else
    let l := alertList company_id db
    Except.ok ({ alerts := l, total_alerts := l.length }, 200)

/-! ## Demo simulation (`demo_test.py`, `simulate_low_stock_alerts`) -/

/-- Python `int(a / d)` for a positive divisor `d`: truncation toward
zero of the exact quotient. -/
def pyTruncDiv (a d : Int) : Int :=
  if 0 ≤ a then a / d else -((-a) / d)

/-- The demo's days-until-stockout of one mock row:
`int(current_stock / daily_sales_rate)` when the rate is positive,
else `999` (`demo_test.py`, the loop body of
`simulate_low_stock_alerts`); `stock / (num/den) = stock * den / num`. -/
def demo_days_until_stockout (stock : Int) (rate : Frac) : Int :=
  if rate.Pos then pyTruncDiv (stock * ((rate.den : ℕ) : ℤ)) rate.num else 999

/-- The value the demo writes into the alert:
`min(days_until_stockout, 999)`. -/
def demo_alert_days (stock : Int) (rate : Frac) : Int :=
  min (demo_days_until_stockout stock rate) 999

/-! ## Product creation (`create_product.py`) -/

/-- A persisted `Product` row of the creation endpoint
(`Product(name=..., sku=..., price=...)` plus its generated id). -/
structure DBProduct where
  id : Nat
  name : String
  sku : String
  price : Frac
deriving DecidableEq

/-- A persisted `Inventory` row of the creation endpoint. -/
structure DBInventory where
  product_id : Nat
  warehouse_id : Nat
  quantity : Int
deriving DecidableEq

/-- The database state the creation endpoint reads and writes;
`next_id` models the id generator observed at `db.session.flush()`. -/
structure ProductDB where
  products : List DBProduct
  inventories : List DBInventory
  next_id : Nat
deriving DecidableEq

/-- The request body of `POST /api/products`.  A `none` field is an
absent key.  The raw `price` and `initial_quantity` values are given
as already-typed results of `float(...)` / `int(...)`: `some none`
is a present value whose conversion raises `ValueError`,
`some (some v)` one that converts to `v`. -/
structure CreateRequest where
  name : Option String
  sku : Option String
  warehouse_id : Option Nat
  price : Option (Option Frac)
  initial_quantity : Option (Option Int)
deriving DecidableEq

/-- The endpoint's response: HTTP status, message, created id. -/
structure CreateResponse where
  status : Nat
  message : String
  product_id : Option Nat
deriving DecidableEq

/-- `float(data.get('price', 0.0)) if data.get('price') is not None
else 0.0`: absent (or null) defaults to `0.0`; a present value either
converts or raises (`none` result = `ValueError`). -/
def parsePrice : Option (Option Frac) → Option Frac
  | none => some ⟨0, 1⟩
  | some none => none
  | some (some q) => some q

/-- `int(data.get('initial_quantity', 0)) if ... else 0`, as above. -/
def parseQuantity : Option (Option Int) → Option Int
  | none => some 0
  | some none => none
  | some (some q) => some q

/-- The `create_product` endpoint.  Returns the database state after
the call together with the response: field validation, SKU uniqueness
check, value conversion (a `ValueError` rolls back), then one product
row and one inventory row appended by a single commit; every failure
leaves the database unchanged. -/
def create_product (db : ProductDB) (data : Option CreateRequest) :
    ProductDB × CreateResponse :=
  match data with
  | none =>
    (db, { status := 400, message := "Missing required fields: name, sku, warehouse_id"
           product_id := none })
  | some req =>
    match req.name, req.sku, req.warehouse_id with
    | some nm, some sk, some wid =>
      if (db.products.filter (fun p => decide (p.sku = sk))) ≠ [] then
        (db, { status := 409, message := "SKU already exists", product_id := none })
      else
        match parsePrice req.price, parseQuantity req.initial_quantity with
        | some pr, some q =>
          let p : DBProduct := { id := db.next_id, name := nm, sku := sk, price := pr }
          let inv : DBInventory :=
            { product_id := db.next_id, warehouse_id := wid, quantity := q }
          ({ products := db.products ++ [p]
             inventories := db.inventories ++ [inv]
             next_id := db.next_id + 1 },
           { status := 201, message := "Product created", product_id := some db.next_id })
        | _, _ =>
          (db, { status := 400, message := "Invalid data type for price or quantity"
                 product_id := none })
    | _, _, _ =>
      (db, { status := 400, message := "Missing required fields: name, sku, warehouse_id"
             product_id := none })

/-! ## Concrete example data (used by witnesses and counterexamples) -/

/-- Two units of product 1 leave warehouse 1 at time 0. -/
def exMov1 : InventoryMovement := ⟨1, 1, -2, "out", 0⟩

/-- Product 1: active, reorder level 20. -/
def exProd1 : Product := ⟨1, "Widget A", "WID-001", some 20, true⟩

/-- Product 2: active, reorder level 15, no movements in `exGood`. -/
def exProd2 : Product := ⟨2, "Widget B", "WID-002", some 15, true⟩

/-- Warehouse 1 of company 1, active. -/
def exWh1 : Warehouse := ⟨1, "Main Warehouse", 1, "active"⟩

/-- Product 1 stock at warehouse 1: 5 units. -/
def exInv1 : Inventory := ⟨1, 1, 5⟩

/-- Product 2 stock at warehouse 1: 3 units. -/
def exInv2 : Inventory := ⟨2, 1, 3⟩

/-- An active supplier. -/
def exSup1 : Supplier := ⟨789, "Supplier Corp", some "orders@supplier.com", none, "active"⟩

/-- A second active supplier with a cheaper link for product 1. -/
def exSup2 : Supplier := ⟨790, "Cheap Co", some "sales@cheapco.com", none, "active"⟩

/-- Active preferred link, cost price 5. -/
def exSP1 : SupplierProduct := ⟨1, 789, true, true, ⟨5, 1⟩, 7, 10⟩

/-- Active preferred link, cost price 3. -/
def exSP2 : SupplierProduct := ⟨1, 790, true, true, ⟨3, 1⟩, 7, 10⟩

/-- A well-behaved snapshot: product 1 has recent sales (rate 2/day)
and two active preferred supplier candidates with cost prices 5 and 3;
product 2 is below threshold but has no movements. -/
def exGood : Snapshot :=
  { now := 0
    movements := [exMov1]
    supplier_products := [exSP1, exSP2]
    suppliers := [exSup1, exSup2]
    inventories := [exInv1, exInv2]
    products := [exProd1, exProd2]
    warehouses := [exWh1] }

/-- The `recent_sales` row of `exGood`: 2 units over 1 active day. -/
def exGoodSales : SalesRec := ⟨1, 1, 2, 1, ⟨2, 1⟩⟩

/-- The single result row of the main query on `exGood`. -/
def exGoodRow : QueryRow :=
  mkRow exInv1 exWh1 exProd1 exGoodSales
    (resolveSupplier exGood.supplier_products exGood.suppliers 1)

/-- Snapshot refuting the claimed ordering of the reported (capped)
days-until-stockout: both alerts cap to 999, yet the first one (pre-cap
1000) has the larger stock, so the capped-value tie-break is violated. -/
def exC2 : Snapshot :=
  { now := 0
    movements := [⟨1, 1, -2, "out", 0⟩, ⟨1, 2, -1, "out", 0⟩]
    supplier_products := []
    suppliers := []
    inventories := [⟨1, 1, 2000⟩, ⟨2, 1, 1500⟩]
    products := [⟨1, "P1", "S1", some 2000, true⟩, ⟨2, "P2", "S2", some 2000, true⟩]
    warehouses := [⟨1, "W", 1, "active"⟩] }

/-- Snapshot with a negative stock level: the projected days value is
negative, refuting the claimed lower bound 0. -/
def exC3 : Snapshot :=
  { now := 0
    movements := [⟨1, 1, -1, "out", 0⟩]
    supplier_products := []
    suppliers := []
    inventories := [⟨1, 1, -5⟩]
    products := [⟨1, "P", "S", none, true⟩]
    warehouses := [⟨1, "W", 1, "active"⟩] }

/-- Inventory row of the no-supplier snapshot. -/
def exNSInv : Inventory := ⟨1, 1, 4⟩

/-- Product of the no-supplier snapshot (no supplier links exist). -/
def exNSProd : Product := ⟨1, "Widget", "W-1", none, true⟩

/-- Warehouse of the no-supplier snapshot. -/
def exNSWh : Warehouse := ⟨1, "Depot", 1, "active"⟩

/-- Movement of the no-supplier snapshot. -/
def exNSMov : InventoryMovement := ⟨1, 1, -3, "out", 0⟩

/-- Snapshot whose only product qualifies for an alert but has no
supplier link at all. -/
def exNoSup : Snapshot :=
  { now := 0
    movements := [exNSMov]
    supplier_products := []
    suppliers := []
    inventories := [exNSInv]
    products := [exNSProd]
    warehouses := [exNSWh] }

/-- The `recent_sales` row of `exNoSup`: 3 units over 1 active day. -/
def exNSSales : SalesRec := ⟨1, 1, 3, 1, ⟨3, 1⟩⟩

/-- A product database already holding the SKU `WID-001`. -/
def exDB : ProductDB :=
  { products := [⟨1, "Widget A", "WID-001", ⟨0, 1⟩⟩]
    inventories := [⟨1, 1, 5⟩]
    next_id := 2 }

/-- A creation request whose SKU collides with `exDB`. -/
def exDupReq : CreateRequest :=
  { name := some "Widget B", sku := some "WID-001", warehouse_id := some 1
    price := none, initial_quantity := none }

/-- A fresh creation request for `exDB`. -/
def exNewReq : CreateRequest :=
  { name := some "Widget C", sku := some "WID-003", warehouse_id := some 1
    price := some (some ⟨19, 1⟩), initial_quantity := some (some 12) }

/-! ## Bridge lemmas: `Frac` arithmetic versus `ℚ` -/

/-- `intCeilDiv` is the mathematical ceiling of the rational quotient. -/
theorem intCeilDiv_eq_ceil (a : Int) (d : Nat) :
    intCeilDiv a d = ⌈(a : ℚ) / (d : ℚ)⌉ := by
  have h1 : ((-a : ℤ) : ℚ) / ((d : ℕ) : ℚ) = -((a : ℚ) / (d : ℚ)) := by
    push_cast
    ring
  have h2 : ⌊((-a : ℤ) : ℚ) / ((d : ℕ) : ℚ)⌋ = (-a) / (d : ℤ) :=
    Rat.floor_intCast_div_natCast (-a) d
  have h3 : ⌈(a : ℚ) / (d : ℚ)⌉ = -⌊-((a : ℚ) / (d : ℚ))⌋ := by
    rw [Int.floor_neg, neg_neg]
  rw [h3, ← h1, h2, intCeilDiv]

/-- `fracLE` agrees with `≤` on the rational values. -/
theorem fracLE_iff_toRat_le (a b : Frac) : fracLE a b ↔ a.toRat ≤ b.toRat := by
  have hda : (0 : ℚ) < ((a.den : ℕ) : ℚ) := by exact_mod_cast a.den.pos
  have hdb : (0 : ℚ) < ((b.den : ℕ) : ℚ) := by exact_mod_cast b.den.pos
  rw [Frac.toRat, Frac.toRat, div_le_div_iff₀ hda hdb, fracLE]
  constructor
  · intro h
    exact_mod_cast h
  · intro h
    exact_mod_cast h

/-- `Frac.Pos` agrees with `0 < ·` on the rational values. -/
theorem fracPos_iff_toRat_pos (r : Frac) : r.Pos ↔ 0 < r.toRat := by
  have hd : (0 : ℚ) < ((r.den : ℕ) : ℚ) := by exact_mod_cast r.den.pos
  rw [Frac.toRat, Frac.Pos]
  constructor
  · intro h
    exact div_pos (by exact_mod_cast h) hd
  · intro h
    by_contra hn
    push_neg at hn
    have h1 : (r.num : ℚ) ≤ 0 := by exact_mod_cast hn
    have h2 := div_nonpos_of_nonpos_of_nonneg h1 (le_of_lt hd)
    linarith

/-- With a positive rate, the days column is the ceiling of the
mathematical quotient stock / rate. -/
theorem stockoutDays_eq_ceil (qty : Int) (rate : Frac) (h : rate.Pos) :
    stockoutDays qty rate = ⌈(qty : ℚ) / rate.toRat⌉ := by
  have hn : (0 : ℚ) < (rate.num : ℚ) := by exact_mod_cast h
  have hd : (0 : ℚ) < ((rate.den : ℕ) : ℚ) := by exact_mod_cast rate.den.pos
  have htn : ((rate.num.toNat : ℕ) : ℚ) = (rate.num : ℚ) := by
    exact_mod_cast Int.toNat_of_nonneg (le_of_lt h)
  rw [stockoutDays, if_pos h, intCeilDiv_eq_ceil]
  congr 1
  rw [Frac.toRat, div_div_eq_mul_div, htn]
  push_cast
  ring

/-- The days column is nonnegative whenever the stock is. -/
theorem stockoutDays_nonneg (qty : Int) (rate : Frac) (h : 0 ≤ qty) :
    0 ≤ stockoutDays qty rate := by
  unfold stockoutDays
  split
  · rename_i hp
    rw [intCeilDiv_eq_ceil]
    apply Int.ceil_nonneg
    apply div_nonneg
    · have : (0 : ℚ) ≤ (qty : ℚ) := by exact_mod_cast h
      positivity
    · positivity
  · norm_num

/-! ## Structural lemmas about the query -/

/-- Membership in a conditional singleton. -/
theorem mem_ite_singleton {α : Type _} {c : Prop} [Decidable c] {a b : α} :
    (a ∈ if c then [b] else []) ↔ c ∧ a = b := by
  by_cases h : c <;> simp [h]

/-- Characterization of the main query's result rows. -/
theorem mem_queryRows {company_id : Int} {db : Snapshot} {r : QueryRow} :
    r ∈ queryRows company_id db ↔
      ∃ i ∈ db.inventories, ∃ w ∈ db.warehouses, ∃ p ∈ db.products,
        ∃ rs ∈ recentSales db.now db.movements,
          (joinOK i w p rs ∧ whereOK company_id i w p) ∧
            r = mkRow i w p rs
              (resolveSupplier db.supplier_products db.suppliers p.id) := by
  simp only [queryRows, List.mem_flatMap, mem_ite_singleton]

/-- Membership in the final alert list: exactly the images of the
query's result rows. -/
theorem mem_alertList {company_id : Int} {db : Snapshot} {a : Alert} :
    a ∈ alertList company_id db ↔
      ∃ r ∈ queryRows company_id db, mkAlert r = a := by
  unfold alertList
  rw [List.mem_map]
  constructor
  · rintro ⟨r, hr, h⟩
    exact ⟨r, (List.perm_insertionSort rowOrder _).mem_iff.mp hr, h⟩
  · rintro ⟨r, hr, h⟩
    exact ⟨r, (List.perm_insertionSort rowOrder _).mem_iff.mpr hr, h⟩

/-- Every `recent_sales` row passes the `HAVING` filter. -/
theorem recentSales_total_pos {now : Int} {movs : List InventoryMovement}
    {rs : SalesRec} (h : rs ∈ recentSales now movs) : 0 < rs.total_sold := by
  unfold recentSales at h
  rw [List.mem_filter] at h
  exact of_decide_eq_true h.2

/-- Every `recent_sales` row is the aggregate of its own group key, and
its group key comes from a qualifying movement. -/
theorem recentSales_eq_mkSalesRec {now : Int} {movs : List InventoryMovement}
    {rs : SalesRec} (h : rs ∈ recentSales now movs) :
    rs = mkSalesRec now movs (rs.warehouse_id, rs.product_id) ∧
      ∃ m ∈ movs, movementQualifies now m ∧
        m.warehouse_id = rs.warehouse_id ∧ m.product_id = rs.product_id := by
  unfold recentSales at h
  rw [List.mem_filter] at h
  obtain ⟨k, hk, hrs⟩ := List.mem_map.mp h.1
  rw [List.mem_dedup] at hk
  obtain ⟨m, hm, hkey⟩ := List.mem_map.mp hk
  rw [qualifyingMovements, List.mem_filter] at hm
  have hq : movementQualifies now m := of_decide_eq_true hm.2
  have hw : rs.warehouse_id = k.1 := by rw [← hrs]; rfl
  have hp : rs.product_id = k.2 := by rw [← hrs]; rfl
  refine ⟨?_, m, hm.1, hq, ?_, ?_⟩
  · rw [hw, hp, Prod.mk.eta, hrs]
  · rw [hw]
    exact congrArg Prod.fst hkey
  · rw [hp]
    exact congrArg Prod.snd hkey

/-- An empty group sells nothing. -/
theorem totalSold_nil : totalSold [] = 0 := rfl

/-- A group with positive sales is nonempty. -/
theorem group_ne_nil_of_total_pos {g : List InventoryMovement}
    (h : 0 < totalSold g) : g ≠ [] := by
  intro e
  rw [e, totalSold_nil] at h
  exact lt_irrefl 0 h

/-- A nonempty group has at least one active day. -/
theorem activeDays_pos {g : List InventoryMovement} (h : g ≠ []) :
    0 < activeDays g := by
  rw [activeDays, List.length_pos]
  intro e
  rw [List.dedup_eq_nil] at e
  exact h (List.map_eq_nil_iff.mp e)

/-- Projection: total of an aggregate row. -/
theorem mkSalesRec_total (now : Int) (movs : List InventoryMovement)
    (k : Nat × Nat) :
    (mkSalesRec now movs k).total_sold = totalSold (movementGroup now movs k) := rfl

/-- Projection: active days of an aggregate row. -/
theorem mkSalesRec_active (now : Int) (movs : List InventoryMovement)
    (k : Nat × Nat) :
    (mkSalesRec now movs k).active_days = activeDays (movementGroup now movs k) := rfl

/-- An aggregate row over a group with positive sales has a positive rate. -/
theorem mkSalesRec_rate_pos (now : Int) (movs : List InventoryMovement)
    (k : Nat × Nat) (h : 0 < totalSold (movementGroup now movs k)) :
    (mkSalesRec now movs k).daily_sales_rate.Pos := by
  have had : 0 < activeDays (movementGroup now movs k) :=
    activeDays_pos (group_ne_nil_of_total_pos h)
  simp only [mkSalesRec]
  rw [dif_pos had]
  exact h

/-- Every `recent_sales` row has a strictly positive daily rate and at
least one active day: the zero-rate branch of the `CASE` is dead for
joined rows. -/
theorem recentSales_rate_pos {now : Int} {movs : List InventoryMovement}
    {rs : SalesRec} (h : rs ∈ recentSales now movs) :
    rs.daily_sales_rate.Pos ∧ 0 < rs.active_days := by
  have htot := recentSales_total_pos h
  have hmk := (recentSales_eq_mkSalesRec h).1
  rw [hmk] at htot ⊢
  rw [mkSalesRec_total] at htot
  refine ⟨mkSalesRec_rate_pos _ _ _ htot, ?_⟩
  rw [mkSalesRec_active]
  exact activeDays_pos (group_ne_nil_of_total_pos htot)

/-- `candLE` is reflexive. -/
theorem candLE_refl (c : SupplierProduct × Supplier) : candLE c c :=
  Or.inr ⟨rfl, le_refl _⟩

/-- The resolver answers with a qualifying candidate that is minimal in
the preferred-then-cheapest order among all qualifying candidates. -/
theorem resolveSupplier_min (sps : List SupplierProduct) (sups : List Supplier)
    (pid : Nat) :
    ∀ c ∈ productCandidates sps sups pid,
      ∃ b ∈ productCandidates sps sups pid,
        resolveSupplier sps sups pid = some (mkResolved pid b) ∧ candLE b c := by
  intro c hc
  have hperm := List.perm_insertionSort candLE (productCandidates sps sups pid)
  have hsorted := List.sorted_insertionSort candLE (productCandidates sps sups pid)
  have hc' : c ∈ List.insertionSort candLE (productCandidates sps sups pid) :=
    hperm.mem_iff.mpr hc
  cases hL : List.insertionSort candLE (productCandidates sps sups pid) with
  | nil =>
    rw [hL] at hc'
    cases hc'
  | cons b t =>
    rw [hL] at hc' hsorted hperm
    refine ⟨b, hperm.subset (List.mem_cons_self b t), ?_, ?_⟩
    · unfold resolveSupplier
      rw [hL]
      rfl
    · rcases List.mem_cons.mp hc' with h | h
      · rw [h]
        exact candLE_refl b
      · exact List.rel_of_sorted_cons hsorted c h

/-! ## Claims -/

/-- C1: for a positive daily rate, the alert engine's SQL reports
`days_until_stockout = CEIL(quantity_available / daily_rate)` — giving
13 for stock 5 at rate 0.4 and 7 for stock 8 at rate 1.2 as claimed —
while the repository's demo simulation (`simulate_low_stock_alerts` in
`demo_test.py`) truncates with `int(...)` instead and reports 12 and 6
for those very mock rows, contradicting the claim at its cited source. -/
theorem C1_ceiling_vs_demo_truncation :
    stockoutDays 5 ⟨2, 5⟩ = ⌈(5 : ℚ) / (0.4 : ℚ)⌉ ∧
    min (stockoutDays 5 ⟨2, 5⟩) 999 = 13 ∧
    stockoutDays 8 ⟨6, 5⟩ = ⌈(8 : ℚ) / (1.2 : ℚ)⌉ ∧
    min (stockoutDays 8 ⟨6, 5⟩) 999 = 7 ∧
    demo_alert_days 5 ⟨2, 5⟩ = 12 ∧
    demo_alert_days 8 ⟨6, 5⟩ = 6 := by
  refine ⟨?_, by decide, ?_, by decide, by decide, by decide⟩
  · have h : ⌈(5 : ℚ) / (0.4 : ℚ)⌉ = 13 := by
      rw [Int.ceil_eq_iff]
      constructor <;> norm_num
    rw [h]
    decide
  · have h : ⌈(8 : ℚ) / (1.2 : ℚ)⌉ = 7 := by
      rw [Int.ceil_eq_iff]
      constructor <;> norm_num
    rw [h]
    decide

/-- C2 (amended): for any two alerts A before B in the output, the
reported (capped) `days_until_stockout` of A is at most that of B, and
whenever they are equal and below the 999 cap, A's stock is at most
B's.  The uncapped sort key satisfies the full claimed lexicographic
property, but the reported value is `min(key, 999)`, which collapses
distinct keys above 999 (see the counterexample). -/
theorem C2_ranking_of_reported_days (company_id : Int) (db : Snapshot) :
    (alertList company_id db).Pairwise (fun A B =>
      A.days_until_stockout ≤ B.days_until_stockout ∧
        (A.days_until_stockout = B.days_until_stockout →
          A.days_until_stockout < 999 → A.current_stock ≤ B.current_stock)) := by
  unfold alertList
  refine List.Pairwise.map mkAlert ?_
    (List.sorted_insertionSort rowOrder (queryRows company_id db))
  intro a b hab
  simp only [mkAlert]
  rcases hab with h | ⟨e, hst⟩
  · constructor
    · omega
    · intro h1 h2
      omega
  · constructor
    · omega
    · intro _ _
      exact hst

/-- C2 counterexample: on `exC2` both alerts report the capped value
999, the first (uncapped key 1000) holding stock 2000 and the second
(uncapped key 1500) holding stock 1500, so the claimed strict-or-tie
ordering of the reported values fails. -/
theorem C2_counterexample :
    ¬ (alertList 1 exC2).Pairwise (fun A B =>
        A.days_until_stockout < B.days_until_stockout ∨
          (A.days_until_stockout = B.days_until_stockout ∧
            A.current_stock ≤ B.current_stock)) := by
  decide

/-- C3 (amended): every reported `days_until_stockout` is capped at
999, and it is nonnegative whenever the alert's stock is nonnegative;
a negative `quantity_available` yields a negative projection (see the
counterexample), so the claimed lower bound 0 needs that proviso. -/
theorem C3_days_le_999_and_nonneg (company_id : Int) (db : Snapshot) :
    ∀ a ∈ alertList company_id db,
      a.days_until_stockout ≤ 999 ∧
        (0 ≤ a.current_stock → 0 ≤ a.days_until_stockout) := by
  intro a ha
  obtain ⟨r, hr, rfl⟩ := mem_alertList.mp ha
  obtain ⟨i, hi, w, hw, p, hp, rs, hrs, hcond, rfl⟩ := mem_queryRows.mp hr
  constructor
  · show min (stockoutDays i.quantity_available rs.daily_sales_rate) 999 ≤ 999
    exact min_le_right _ _
  · intro hstock
    show (0 : ℤ) ≤ min (stockoutDays i.quantity_available rs.daily_sales_rate) 999
    have h0 : 0 ≤ stockoutDays i.quantity_available rs.daily_sales_rate :=
      stockoutDays_nonneg _ _ hstock
    omega

/-- C3 witness: the theorem applied to the single alert of `exGood`. -/
theorem C3_witness :
    (mkAlert exGoodRow).days_until_stockout ≤ 999 ∧
      0 ≤ (mkAlert exGoodRow).days_until_stockout :=
  ⟨(C3_days_le_999_and_nonneg 1 exGood (mkAlert exGoodRow) (by decide)).1,
   (C3_days_le_999_and_nonneg 1 exGood (mkAlert exGoodRow) (by decide)).2 (by decide)⟩

/-- C3 counterexample: with stock −5 and rate 1, the produced alert
reports `days_until_stockout = −5`, outside the claimed range [0, 999]. -/
theorem C3_counterexample :
    ¬ ∀ a ∈ alertList 1 exC3,
        0 ≤ a.days_until_stockout ∧ a.days_until_stockout ≤ 999 := by
  decide

/-- C4: every alert's stock is at or below its threshold, and the
threshold is the joined product's `reorder_level` with default 10. -/
theorem C4_stock_le_threshold (company_id : Int) (db : Snapshot) :
    ∀ a ∈ alertList company_id db,
      a.current_stock ≤ a.threshold ∧
        ∃ p ∈ db.products, p.id = a.product_id ∧
          a.threshold = p.reorder_level.getD 10 := by
  intro a ha
  obtain ⟨r, hr, rfl⟩ := mem_alertList.mp ha
  obtain ⟨i, hi, w, hw, p, hp, rs, hrs, ⟨hjoin, hwhere⟩, rfl⟩ := mem_queryRows.mp hr
  refine ⟨?_, p, hp, rfl, rfl⟩
  show i.quantity_available ≤ p.reorder_level.getD 10
  exact hwhere.2.1

/-- C4 witness: the theorem applied to the single alert of `exGood`. -/
theorem C4_witness :
    (mkAlert exGoodRow).current_stock ≤ (mkAlert exGoodRow).threshold ∧
      ∃ p ∈ exGood.products, p.id = (mkAlert exGoodRow).product_id ∧
        (mkAlert exGoodRow).threshold = p.reorder_level.getD 10 :=
  C4_stock_le_threshold 1 exGood (mkAlert exGoodRow) (by decide)

/-- C5: a (warehouse, product) pair with no qualifying outbound
movement in the window never appears in the output, whatever its
stock level. -/
theorem C5_no_movement_no_alert (company_id : Int) (db : Snapshot) (wid pid : Nat)
    (h : ∀ m ∈ db.movements, movementQualifies db.now m →
      ¬(m.warehouse_id = wid ∧ m.product_id = pid)) :
    ∀ a ∈ alertList company_id db,
      ¬(a.warehouse_id = wid ∧ a.product_id = pid) := by
  intro a ha hand
  obtain ⟨haw, hap⟩ := hand
  obtain ⟨r, hr, rfl⟩ := mem_alertList.mp ha
  obtain ⟨i, hi, w, hw, p, hp, rs, hrs, ⟨hjoin, hwhere⟩, rfl⟩ := mem_queryRows.mp hr
  obtain ⟨-, m, hm, hq, hmw, hmp⟩ := recentSales_eq_mkSalesRec hrs
  have haw' : i.warehouse_id = wid := haw
  have hap' : p.id = pid := hap
  refine h m hm hq ⟨?_, ?_⟩
  · rw [hmw, hjoin.2.2.1]
    exact haw'
  · rw [hmp, hjoin.2.2.2, hjoin.2.1]
    exact hap'

/-- C5 witness: in `exGood`, product 2 has stock 3 below its threshold
15 but no movements, and indeed no alert carries the pair (1, 2). -/
theorem C5_witness :
    ¬((mkAlert exGoodRow).warehouse_id = 1 ∧ (mkAlert exGoodRow).product_id = 2) :=
  C5_no_movement_no_alert 1 exGood 1 2 (by decide) (mkAlert exGoodRow) (by decide)

/-- C6: the resolver yields at most one supplier per product (an
`Option`), and whenever a qualifying candidate exists it answers with
a qualifying candidate minimal in the order preferred-first then
cheapest; on `exGood`, whose product 1 has two active preferred
candidates with cost prices 5 and 3, the cost-3 supplier (id 790) is
selected. -/
theorem C6_supplier_selection :
    (∀ (sps : List SupplierProduct) (sups : List Supplier) (pid : Nat),
      ∀ c ∈ productCandidates sps sups pid,
        ∃ b ∈ productCandidates sps sups pid,
          resolveSupplier sps sups pid = some (mkResolved pid b) ∧ candLE b c) ∧
    (resolveSupplier exGood.supplier_products exGood.suppliers 1).map
        (fun r => (r.supplier_id, r.supplier_name)) = some (790, "Cheap Co") :=
  ⟨resolveSupplier_min, by decide⟩

/-- C6 witness: the minimality statement applied to the concrete
candidate with cost price 5 of `exGood`. -/
theorem C6_witness :
    ∃ b ∈ productCandidates exGood.supplier_products exGood.suppliers 1,
      resolveSupplier exGood.supplier_products exGood.suppliers 1 =
          some (mkResolved 1 b) ∧
        candLE b (exSP1, exSup1) :=
  C6_supplier_selection.1 exGood.supplier_products exGood.suppliers 1
    (exSP1, exSup1) (by decide)

/-- C7: for a product with no qualifying supplier candidate, every
alert of that product carries the sentinel supplier object, and every
qualifying (inventory, warehouse, product, velocity) combination still
yields an alert — the missing supplier never suppresses it. -/
theorem C7_no_supplier_sentinel (company_id : Int) (db : Snapshot) (pid : Nat)
    (h : productCandidates db.supplier_products db.suppliers pid = []) :
    (∀ a ∈ alertList company_id db,
      a.product_id = pid → a.supplier = noSupplierInfo) ∧
    (∀ i ∈ db.inventories, ∀ w ∈ db.warehouses, ∀ p ∈ db.products,
      ∀ rs ∈ recentSales db.now db.movements,
        joinOK i w p rs → whereOK company_id i w p → p.id = pid →
          ∃ a ∈ alertList company_id db,
            a.product_id = pid ∧ a.warehouse_id = i.warehouse_id ∧
              a.supplier = noSupplierInfo) := by
  have hres : resolveSupplier db.supplier_products db.suppliers pid = none := by
    unfold resolveSupplier
    rw [h]
    rfl
  constructor
  · intro a ha hpid
    obtain ⟨r, hr, rfl⟩ := mem_alertList.mp ha
    obtain ⟨i, hi, w, hw, p, hp, rs, hrs, hcond, rfl⟩ := mem_queryRows.mp hr
    have hpeq : p.id = pid := hpid
    show (mkAlert (mkRow i w p rs
      (resolveSupplier db.supplier_products db.suppliers p.id))).supplier =
        noSupplierInfo
    rw [hpeq, hres]
    rfl
  · intro i hi w hw p hp rs hrs hjoin hwhere hpeq
    have hmem : mkRow i w p rs
        (resolveSupplier db.supplier_products db.suppliers p.id) ∈
          queryRows company_id db :=
      mem_queryRows.mpr ⟨i, hi, w, hw, p, hp, rs, hrs, ⟨hjoin, hwhere⟩, rfl⟩
    refine ⟨mkAlert (mkRow i w p rs
        (resolveSupplier db.supplier_products db.suppliers p.id)),
      mem_alertList.mpr ⟨_, hmem, rfl⟩, hpeq, rfl, ?_⟩
    show (mkAlert (mkRow i w p rs
      (resolveSupplier db.supplier_products db.suppliers p.id))).supplier =
        noSupplierInfo
    rw [hpeq, hres]
    rfl

/-- C7 witness: on `exNoSup` (no supplier rows at all) the qualifying
product 1 still yields an alert, with the sentinel supplier object. -/
theorem C7_witness :
    ∃ a ∈ alertList 1 exNoSup,
      a.product_id = 1 ∧ a.warehouse_id = 1 ∧ a.supplier = noSupplierInfo :=
  (C7_no_supplier_sentinel 1 exNoSup 1 (by decide)).2 exNSInv (by decide)
    exNSWh (by decide) exNSProd (by decide) exNSSales (by decide)
    (by decide) (by decide) (by decide)

/-- C8: a non-positive company id yields the validation error (HTTP
400, not an empty list), and a positive one always takes the success
branch with HTTP 200. -/
theorem C8_company_id_validation (company_id : Int) (db : Snapshot) :
    (company_id ≤ 0 →
      low_stock_alerts company_id db =
        Except.error { error := "Invalid company ID", status := 400 }) ∧
    (0 < company_id →
      low_stock_alerts company_id db =
        Except.ok ({ alerts := alertList company_id db
                     total_alerts := (alertList company_id db).length }, 200)) := by
  constructor
  · intro h
    unfold low_stock_alerts
    rw [if_pos h]
  · intro h
    unfold low_stock_alerts
    rw [if_neg (by omega)]

/-- C8 witness: company id −1 is rejected with the validation error,
company id 1 succeeds with HTTP 200. -/
theorem C8_witness :
    low_stock_alerts (-1) exGood =
        Except.error { error := "Invalid company ID", status := 400 } ∧
      low_stock_alerts 1 exGood =
        Except.ok ({ alerts := alertList 1 exGood
                     total_alerts := (alertList 1 exGood).length }, 200) :=
  ⟨(C8_company_id_validation (-1) exGood).1 (by decide),
   (C8_company_id_validation 1 exGood).2 (by decide)⟩

/-- C9: product creation rejects a missing body or missing
name/sku/warehouse_id, rejects a duplicate SKU with HTTP 409, appends
exactly one product row and one inventory row (linked by the generated
id) on HTTP 201, and leaves the database unchanged on every non-201
outcome. -/
theorem C9_create_product_contract (db : ProductDB) :
    (create_product db none =
      (db, { status := 400
             message := "Missing required fields: name, sku, warehouse_id"
             product_id := none })) ∧
    (∀ req : CreateRequest,
      req.name = none ∨ req.sku = none ∨ req.warehouse_id = none →
      create_product db (some req) =
        (db, { status := 400
               message := "Missing required fields: name, sku, warehouse_id"
               product_id := none })) ∧
    (∀ req : CreateRequest, ∀ nm sk wid,
      req.name = some nm → req.sku = some sk → req.warehouse_id = some wid →
      (∃ p ∈ db.products, p.sku = sk) →
      create_product db (some req) =
        (db, { status := 409, message := "SKU already exists", product_id := none })) ∧
    (∀ data db2 resp, create_product db data = (db2, resp) → resp.status = 201 →
      ∃ pr inv, db2.products = db.products ++ [pr] ∧
        db2.inventories = db.inventories ++ [inv] ∧ inv.product_id = pr.id) ∧
    (∀ data db2 resp, create_product db data = (db2, resp) → resp.status ≠ 201 →
      db2 = db) := by
  refine ⟨rfl, ?_, ?_, ?_, ?_⟩
  · rintro ⟨nm, sk, wid, pr, q⟩ hmiss
    rcases nm with _ | nm <;> rcases sk with _ | sk <;> rcases wid with _ | wid <;>
      first
        | rfl
        | (rcases hmiss with h | h | h <;> cases h)
  · intro req nm sk wid hnm hsk hwid hdup
    obtain ⟨p0, hp0, hsku⟩ := hdup
    have hne : (db.products.filter (fun p => decide (p.sku = sk))) ≠ [] := by
      intro e
      have hmemf : p0 ∈ db.products.filter (fun p => decide (p.sku = sk)) :=
        List.mem_filter.mpr ⟨hp0, decide_eq_true hsku⟩
      rw [e] at hmemf
      cases hmemf
    simp only [create_product]
    rw [hnm, hsk, hwid]
    simp only [if_pos hne]
  · intro data db2 resp h h201
    simp only [create_product] at h
    split at h
    · rw [Prod.mk.injEq] at h
      obtain ⟨rfl, rfl⟩ := h
      exact absurd h201 (by decide)
    · split at h
      · split at h
        · rw [Prod.mk.injEq] at h
          obtain ⟨rfl, rfl⟩ := h
          exact absurd h201 (by decide)
        · split at h
          · rw [Prod.mk.injEq] at h
            obtain ⟨rfl, rfl⟩ := h
            exact ⟨_, _, rfl, rfl, rfl⟩
          · rw [Prod.mk.injEq] at h
            obtain ⟨rfl, rfl⟩ := h
            exact absurd h201 (by decide)
      · rw [Prod.mk.injEq] at h
        obtain ⟨rfl, rfl⟩ := h
        exact absurd h201 (by decide)
  · intro data db2 resp h hne
    simp only [create_product] at h
    split at h
    · rw [Prod.mk.injEq] at h
      obtain ⟨rfl, rfl⟩ := h
      rfl
    · split at h
      · split at h
        · rw [Prod.mk.injEq] at h
          obtain ⟨rfl, rfl⟩ := h
          rfl
        · split at h
          · rw [Prod.mk.injEq] at h
            obtain ⟨rfl, rfl⟩ := h
            exact absurd rfl hne
          · rw [Prod.mk.injEq] at h
            obtain ⟨rfl, rfl⟩ := h
            rfl
      · rw [Prod.mk.injEq] at h
        obtain ⟨rfl, rfl⟩ := h
        rfl

/-- C9 witness: on `exDB` a colliding SKU is rejected with 409 and the
state kept, while a fresh request appends exactly one product and one
linked inventory row. -/
theorem C9_witness :
    create_product exDB (some exDupReq) =
      (exDB, { status := 409, message := "SKU already exists", product_id := none }) ∧
    ∃ pr inv,
      (create_product exDB (some exNewReq)).1.products = exDB.products ++ [pr] ∧
        (create_product exDB (some exNewReq)).1.inventories =
            exDB.inventories ++ [inv] ∧
          inv.product_id = pr.id :=
  ⟨(C9_create_product_contract exDB).2.2.1 exDupReq "Widget B" "WID-001" 1
      rfl rfl rfl (by decide),
   (C9_create_product_contract exDB).2.2.2.1 (some exNewReq)
      (create_product exDB (some exNewReq)).1
      (create_product exDB (some exNewReq)).2 rfl (by decide)⟩

/-- C10: every velocity-map entry carries a strictly positive daily
rate (its group sums at least one unit over at least one active day),
so every joined row takes the ceiling branch of the days computation:
the zero-velocity 999 branch is dead for rows of the result set. -/
theorem C10_velocity_rate_positive (now : Int) (movs : List InventoryMovement)
    (company_id : Int) (db : Snapshot) :
    (∀ rs ∈ recentSales now movs,
      rs.daily_sales_rate.Pos ∧ 0 < rs.daily_sales_rate.toRat) ∧
    (∀ r ∈ queryRows company_id db,
      r.daily_sales_rate.Pos ∧
        r.days_until_stockout =
          ⌈(r.current_stock : ℚ) / r.daily_sales_rate.toRat⌉) := by
  constructor
  · intro rs hrs
    have h := (recentSales_rate_pos hrs).1
    exact ⟨h, (fracPos_iff_toRat_pos _).mp h⟩
  · intro r hr
    obtain ⟨i, hi, w, hw, p, hp, rs, hrs, hcond, rfl⟩ := mem_queryRows.mp hr
    have hpos := (recentSales_rate_pos hrs).1
    refine ⟨hpos, ?_⟩
    show stockoutDays i.quantity_available rs.daily_sales_rate =
      ⌈(i.quantity_available : ℚ) / rs.daily_sales_rate.toRat⌉
    exact stockoutDays_eq_ceil _ _ hpos

/-- C10 witness: the theorem applied to the concrete snapshot
`exGood` (its velocity entry and its single result row). -/
theorem C10_witness :
    (exGoodSales.daily_sales_rate.Pos ∧ 0 < exGoodSales.daily_sales_rate.toRat) ∧
    (exGoodRow.daily_sales_rate.Pos ∧
      exGoodRow.days_until_stockout =
        ⌈(exGoodRow.current_stock : ℚ) / exGoodRow.daily_sales_rate.toRat⌉) :=
  ⟨(C10_velocity_rate_positive 0 exGood.movements 1 exGood).1 exGoodSales (by decide),
   (C10_velocity_rate_positive 0 exGood.movements 1 exGood).2 exGoodRow (by decide)⟩
